import Mathlib

/-!
Verification development for the XPoster repository.

Python strings are modelled as `List Char` (one entry per code point, so
Python `len` is `List.length`).  Python floats are modelled as exact
rationals `ℚ`; wherever a claim is settled at a concrete input we checked
that the IEEE-754 computation at that input is exact, so the rational
model agrees with the float one there.  Fallible external calls (the LLM
client, the Twitter client, the random number generator) are modelled as
explicit inputs, and the calls a job makes are recorded in an explicit
trace so that "makes no call" claims are statable.
-/

namespace XPoster

/-- Python `str.isspace` characters relevant to `str.strip()` (ASCII). -/
def pyIsSpace (c : Char) : Bool :=
  c = ' ' || c = '\t' || c = '\n' || c = '\r' || c = '\x0b' || c = '\x0c'

/-- The apostrophe character. -/
def apos : Char := Char.ofNat 39

/-- The characters stripped by `text.strip()` with argument `quote-chars`
in `_clean_tweet`: the double quote and the apostrophe. -/
def isQuoteChar (c : Char) : Bool :=
  c = '"' || c = apos

/-- Remove trailing characters satisfying `p` (the right half of Python
`str.strip`). -/
def stripEnd (p : Char → Bool) (s : List Char) : List Char :=
  (s.reverse.dropWhile p).reverse

/-- Python `s.strip(chars)`: drop leading and trailing characters
satisfying `p`. -/
def pyStrip (p : Char → Bool) (s : List Char) : List Char :=
  stripEnd p (s.dropWhile p)

/-- Python `str.lower` restricted to ASCII letters, which is all the
label prefixes of `_clean_tweet` contain. -/
def pyLower (s : List Char) : List Char :=
  s.map Char.toLower

/-- The label prefixes stripped by `_clean_tweet`,
`["tweet:", "reply:", "response:", "here's the tweet:", "here is the tweet:"]`. -/
def labelPrefixes : List (List Char) :=
  ["tweet:".data, "reply:".data, "response:".data,
   "here".data ++ [apos] ++ "s the tweet:".data,
   "here is the tweet:".data]

/-- One iteration of the prefix-stripping loop of `_clean_tweet`:
`if text.lower().startswith(prefix): text = text[len(prefix):].strip()`. -/
def stripPrefixStep (t : List Char) (pre : List Char) : List Char :=
  if pre.isPrefixOf (pyLower t) then pyStrip pyIsSpace (t.drop pre.length) else t

/-- The truncation step of `_clean_tweet`:
`if len(text) > 280: text = text[:277] + "..."`. -/
def truncate280 (t : List Char) : List Char :=
  if 280 < t.length then t.take 277 ++ "...".data else t

/-- `ContentGenerator._clean_tweet` (src/content_generator/generator.py):
strip surrounding whitespace, then surrounding quote characters, then the
label prefixes in order, then truncate `text[:277] + "..."` when the text
exceeds 280 characters, and return `text.strip()`. -/
def clean_tweet (text : List Char) : List Char :=
  pyStrip pyIsSpace
    (truncate280
      (labelPrefixes.foldl stripPrefixStep
        (pyStrip isQuoteChar (pyStrip pyIsSpace text))))

/-- Python substring containment `needle in hay`. -/
def containsSub (hay needle : List Char) : Bool :=
  needle.isPrefixOf hay ||
    match hay with
    | [] => false
    | _ :: t => containsSub t needle

/-- `ContentGenerator.should_reply_to_tweet` (src/content_generator/generator.py).
`draw` models the value returned by `random.random()`; `reply_probability`
is the configured `replies.reply_probability`; `keywords` is
`replies.keywords_to_monitor`; `tweet_text` is the candidate tweet's text. -/
def should_reply_to_tweet (reply_probability draw : ℚ)
    (keywords : List (List Char)) (tweet_text : List Char) : Bool :=
  if reply_probability < draw then false
  else if keywords.isEmpty then true
  else keywords.any fun k => containsSub (pyLower tweet_text) (pyLower k)

/-! ## Style analyzer (src/style_analyzer/analyzer.py) -/

/-- Python `"\w"` word characters (ASCII model). -/
def isWordChar (c : Char) : Bool :=
  ('a' ≤ c && c ≤ 'z') || ('A' ≤ c && c ≤ 'Z') || ('0' ≤ c && c ≤ '9') || c = '_'

/-- Characters matched by the emoji regex
`[grinning..folded-hands  cyclone..moai  rocket..U+1F6FF]` of
`_quantitative_analysis`: code points in [1F600,1F64F], [1F300,1F5FF]
or [1F680,1F6FF]. -/
def isEmojiChar (c : Char) : Bool :=
  (0x1F600 ≤ c.toNat && c.toNat ≤ 0x1F64F) ||
  (0x1F300 ≤ c.toNat && c.toNat ≤ 0x1F5FF) ||
  (0x1F680 ≤ c.toNat && c.toNat ≤ 0x1F6FF)

/-- Number of matches of the regex `#\w+`: a `#` immediately followed by a
word character (matches never overlap, so this is the match count). -/
def countHashtags : List Char → Nat
  | [] => 0
  | [_] => 0
  | a :: b :: t => (if a = '#' && isWordChar b then 1 else 0) + countHashtags (b :: t)

/-- Number of occurrences of character `c` (Python `str.count` for a
single character). -/
def countChar (c : Char) (s : List Char) : Nat :=
  (s.filter (· = c)).length

/-- Split at every character satisfying `p`, keeping empty segments
(used to model regex split on a character class, followed by
strip-and-filter which erases the difference with run-based splitting). -/
def splitAny (p : Char → Bool) : List Char → List (List Char)
  | [] => [[]]
  | c :: t =>
    if p c then [] :: splitAny p t
    else
      match splitAny p t with
      | [] => [[c]]
      | s :: rest => (c :: s) :: rest

/-- Python `s.split()`: whitespace-separated words, no empties. -/
def pySplitWS (s : List Char) : List (List Char) :=
  (splitAny pyIsSpace s).filter fun w => ¬ w.isEmpty

/-- Python `sep.join(xs)`. -/
def pyJoin (sep : List Char) : List (List Char) → List Char
  | [] => []
  | [x] => x
  | x :: xs => x ++ sep ++ pyJoin sep xs

/-- Sentence terminator characters `[.!?]`. -/
def isSentenceEnd (c : Char) : Bool :=
  c = '.' || c = '!' || c = '?'

/-- `_calculate_avg_sentence_length`: split on `[.!?]+`, strip, drop
empties, and average the whitespace-word counts. -/
def calculate_avg_sentence_length (text : List Char) : ℚ :=
  let sentences := ((splitAny isSentenceEnd text).map (pyStrip pyIsSpace)).filter (· ≠ [])
  if sentences = [] then 0
  else (((sentences.map fun s => (pySplitWS s).length).sum : ℚ)) / sentences.length

/-- `_calculate_avg_word_length`: words are the maximal runs of word
characters (regex `\b\w+\b`); average their lengths. -/
def calculate_avg_word_length (text : List Char) : ℚ :=
  let words := (splitAny (fun c => ¬ isWordChar c) text).filter (· ≠ [])
  if words = [] then 0
  else (((words.map List.length).sum : ℚ)) / words.length

/-- The six quantitative metrics computed by `_quantitative_analysis`. -/
structure QuantStats where
  avg_sentence_length : ℚ
  avg_word_length : ℚ
  emoji_frequency : ℚ
  hashtag_frequency : ℚ
  exclamation_frequency : ℚ
  question_frequency : ℚ
deriving DecidableEq, Repr

/-- `StyleAnalyzer._quantitative_analysis`. -/
def quantitative_analysis (samples : List (List Char)) : QuantStats :=
  let total := pyJoin " ".data samples
  let n : ℚ := samples.length
  { avg_sentence_length := calculate_avg_sentence_length total
    avg_word_length := calculate_avg_word_length total
    emoji_frequency := if samples = [] then 0 else ((total.filter isEmojiChar).length : ℚ) / n
    hashtag_frequency := if samples = [] then 0 else (countHashtags total : ℚ) / n
    exclamation_frequency := if samples = [] then 0 else (countChar '!' total : ℚ) / n
    question_frequency := if samples = [] then 0 else (countChar '?' total : ℚ) / n }

/-- The eleven descriptive fields the analysis prompt asks the LLM to
produce (the JSON schema embedded in `analyze_samples`). -/
structure LLMProfile where
  tone : List Char
  voice : List Char
  vocabulary_level : List Char
  sentence_style : List Char
  punctuation_patterns : List (List Char)
  emoji_usage : List Char
  hashtag_style : List Char
  common_phrases : List (List Char)
  personality_traits : List (List Char)
  topics_of_interest : List (List Char)
  writing_quirks : List (List Char)
deriving DecidableEq, Repr

/-- A full style profile: descriptive fields plus the quantitative
metrics (`style_profile.update(quantitative)` makes the quantitative
fields authoritative, which the separate `quant` component models). -/
structure StyleProfile where
  descr : LLMProfile
  quant : QuantStats
deriving DecidableEq, Repr

/-- `StyleAnalyzer._create_default_profile`: fixed neutral descriptive
values, `emoji_usage`/`hashtag_style` derived from the quantitative
frequencies with thresholds 0.5 and 0.2, and the quantitative metrics. -/
def create_default_profile (samples : List (List Char)) : StyleProfile :=
  let q := quantitative_analysis samples
  { descr :=
      { tone := "neutral".data
        voice := "conversational".data
        vocabulary_level := "moderate".data
        sentence_style := "varied".data
        punctuation_patterns := ["standard".data]
        emoji_usage := if (1 : ℚ)/2 < q.emoji_frequency then "moderate".data else "rare".data
        hashtag_style := if (1 : ℚ)/5 < q.hashtag_frequency then "occasional".data else "none".data
        common_phrases := []
        personality_traits := ["informative".data]
        topics_of_interest := []
        writing_quirks := [] }
    quant := q }

/-- Outcome of the `ai_client.analyze` call followed by `_extract_json`:
the call returned and a JSON profile was extracted, the call returned but
no JSON could be extracted, or the call raised an exception. -/
inductive LLMOutcome where
  | ok (p : LLMProfile)
  | parseFail
  | error
deriving DecidableEq

/-- The `StyleAnalyzer` state: `self.style_profile` (initially `None`). -/
structure AnalyzerState where
  style_profile : Option StyleProfile
deriving DecidableEq

/-- Result of one call to `analyze_samples`: the analyzer state
afterwards, the returned dictionary (`none` models the empty dict `{}`),
and whether the LLM was called. -/
structure AnalyzeResult where
  state : AnalyzerState
  result : Option StyleProfile
  llm_called : Bool
deriving DecidableEq

/-- `StyleAnalyzer.analyze_samples`: empty input returns `{}` without
calling the LLM; on a parsed LLM response the profile (overlaid with the
quantitative metrics) is stored in `self.style_profile` and returned; if
extraction fails or the call raises, the default profile is returned
(without touching `self.style_profile`). -/
def analyze_samples (st : AnalyzerState) (samples : List (List Char))
    (outcome : LLMOutcome) : AnalyzeResult :=
  if samples = [] then ⟨st, none, false⟩
  else
    match outcome with
    | .ok p =>
      let profile : StyleProfile := ⟨p, quantitative_analysis samples⟩
      ⟨⟨some profile⟩, some profile, true⟩
    | .parseFail => ⟨st, some (create_default_profile samples), true⟩
    | .error => ⟨st, some (create_default_profile samples), true⟩

/-! ## Scheduler (src/scheduler/scheduler.py) -/

/-- Microseconds in one hour; a `datetime.time` of a whole hour `h`
compares as `h * microsPerHour` microseconds since midnight. -/
def microsPerHour : Nat := 3600000000

/-- Scheduler state: `self.posts_today` and `self.last_mention_id`. -/
structure SchedState where
  posts_today : Nat
  last_mention_id : Option Nat
deriving DecidableEq

/-- Environment of one firing of `_post_tweet_job`: the current local
time-of-day in microseconds, the posting configuration, and the results
of the external calls the job may make (`ideas` from
`generate_tweet_ideas`, `pick` the random choice, `gen_text` from
`generate_tweet`, `post_ok` the truthiness of `post_tweet`'s result). -/
structure PostEnv where
  now : Nat
  start_hour : Nat
  end_hour : Nat
  max_posts : Nat
  ideas : List (List Char)
  pick : Nat
  gen_text : List Char
  post_ok : Bool
deriving DecidableEq

/-- Calls made during one firing of `_post_tweet_job`: LLM generation
calls (`generate_tweet_ideas` and `generate_tweet`) and platform calls
(`post_tweet`). -/
structure PostTrace where
  llm_calls : Nat
  platform_calls : Nat
deriving DecidableEq, Repr

/-- `PostingScheduler._post_tweet_job`: skip when the current time is
outside `start_time <= now <= end_time` (a closed interval in the code),
skip when `posts_today >= max_posts`, otherwise call
`generate_tweet_ideas` and `generate_tweet` (two LLM generation calls;
the random topic choice from `ideas` only feeds the generation prompt,
whose result `gen_text` is an input here), and when the generated text
is truthy call `post_tweet`, incrementing `posts_today` only on a truthy
platform result. -/
def post_tweet_job (st : SchedState) (env : PostEnv) : SchedState × PostTrace :=
  if ¬ (env.start_hour * microsPerHour ≤ env.now ∧
        env.now ≤ env.end_hour * microsPerHour) then (st, ⟨0, 0⟩)
  else if env.max_posts ≤ st.posts_today then (st, ⟨0, 0⟩)
  else if env.gen_text ≠ [] then
    if env.post_ok then (⟨st.posts_today + 1, st.last_mention_id⟩, ⟨2, 1⟩)
    else (st, ⟨2, 1⟩)
  else (st, ⟨2, 0⟩)

/-- Interval computation of `_schedule_posting`: `none` when
`end_hour - start_hour <= 0`, else the base interval
`(active_hours * 60) // max_posts` with the randomization bounds
`int(interval * 0.8)` and `int(interval * 1.2)` (floats modelled as
exact rationals; the operands are nonnegative so `int` truncation is
`Rat.floor`). -/
def schedule_posting_params (start_hour end_hour max_posts : ℤ) :
    Option (ℤ × ℤ × ℤ) :=
  if end_hour - start_hour ≤ 0 then none
  else
    some (((end_hour - start_hour) * 60).fdiv max_posts,
      (((((end_hour - start_hour) * 60).fdiv max_posts : ℤ) : ℚ) * (4/5)).floor,
      (((((end_hour - start_hour) * 60).fdiv max_posts : ℤ) : ℚ) * (6/5)).floor)

/-- `random.randint(a, b)` (both endpoints inclusive) driven by an
arbitrary draw. -/
def randint (a b : Nat) (draw : Nat) : Nat :=
  a + draw % (b - a + 1)

/-- A fetched mention: its `id` and `text` fields. -/
structure Mention where
  id : Nat
  text : List Char
deriving DecidableEq

/-- Observable events of one firing of `_monitor_and_reply_job`:
updating `self.last_mention_id`, and one reply attempt per mention
(`_reply_to_mention` catches its own exceptions, so an attempt's outcome
`ok` only affects logging, never the scheduler state). -/
inductive MonitorEvent where
  | setCursor (id : Nat)
  | replyAttempt (id : Nat) (ok : Bool)
deriving DecidableEq

/-- `PostingScheduler._monitor_and_reply_job`, restricted to the mention
phase (the subsequent `_monitor_timeline` touches neither
`last_mention_id` nor `posts_today`): when the fetched list is
non-empty, set `last_mention_id` to the id of the first fetched mention,
then attempt a reply to each mention in order; `replyOk` gives each
attempt's outcome. -/
def monitor_and_reply_job (st : SchedState) (mentions : List Mention)
    (replyOk : Mention → Bool) : SchedState × List MonitorEvent :=
  match mentions with
  | [] => (st, [])
  | m :: rest =>
    (⟨st.posts_today, some m.id⟩,
     MonitorEvent.setCursor m.id ::
       (m :: rest).map fun x => MonitorEvent.replyAttempt x.id (replyOk x))

/-! ## Helper lemmas -/

theorem stripEnd_eq_rdropWhile (p : Char → Bool) (s : List Char) :
    stripEnd p s = s.rdropWhile p := rfl

theorem pyStrip_length_le (p : Char → Bool) (s : List Char) :
    (pyStrip p s).length ≤ s.length :=
  le_trans (List.IsPrefix.length_le (List.rdropWhile_prefix p _))
    (List.IsSuffix.length_le (List.dropWhile_suffix p))

theorem dropWhile_eq_self_of_prefix (p : Char → Bool) {u v : List Char}
    (hu : u.dropWhile p = u) (hv : v <+: u) : v.dropWhile p = v := by
  rw [List.dropWhile_eq_self_iff] at hu ⊢
  intro hl
  obtain ⟨t, ht⟩ := hv
  have hlu : 0 < u.length := by
    have := List.IsPrefix.length_le ⟨t, ht⟩
    omega
  have hget : v.get ⟨0, hl⟩ = u.get ⟨0, hlu⟩ := by
    subst ht
    simp only [List.get_eq_getElem]
    exact (List.getElem_append_left hl).symm
  rw [hget]
  exact hu hlu

theorem pyStrip_idem (p : Char → Bool) (s : List Char) :
    pyStrip p (pyStrip p s) = pyStrip p s := by
  unfold pyStrip
  rw [stripEnd_eq_rdropWhile, stripEnd_eq_rdropWhile]
  have h1 : ((s.dropWhile p).rdropWhile p).dropWhile p = (s.dropWhile p).rdropWhile p :=
    dropWhile_eq_self_of_prefix p (List.dropWhile_idempotent p s) (List.rdropWhile_prefix p _)
  rw [h1, List.rdropWhile_idempotent]

theorem stripPrefixStep_length_le (t pre : List Char) :
    (stripPrefixStep t pre).length ≤ t.length := by
  unfold stripPrefixStep
  split
  · exact le_trans (pyStrip_length_le _ _) (by simp [List.length_drop])
  · exact le_refl _

theorem foldl_stripPrefixStep_length_le (ps : List (List Char)) (t : List Char) :
    (ps.foldl stripPrefixStep t).length ≤ t.length := by
  induction ps generalizing t with
  | nil => exact le_refl _
  | cons q qs ih =>
    exact le_trans (ih (stripPrefixStep t q)) (stripPrefixStep_length_le t q)

theorem foldl_stripPrefixStep_eq_self (ps : List (List Char)) (t : List Char)
    (h : ∀ pre ∈ ps, ¬ pre.isPrefixOf (pyLower t)) :
    ps.foldl stripPrefixStep t = t := by
  induction ps with
  | nil => rfl
  | cons q qs ih =>
    have hq : stripPrefixStep t q = t := by
      unfold stripPrefixStep
      rw [if_neg]
      simpa using h q (by simp)
    rw [List.foldl_cons, hq]
    exact ih fun pre hpre => h pre (by simp [hpre])

theorem truncate280_length_le (t : List Char) : (truncate280 t).length ≤ 280 := by
  unfold truncate280
  split
  · next h => simp [List.length_take]
  · next h => omega

theorem truncate280_eq_self (t : List Char) (h : t.length ≤ 280) : truncate280 t = t := by
  unfold truncate280
  rw [if_neg (by omega)]

theorem clean_tweet_length_le (text : List Char) : (clean_tweet text).length ≤ 280 :=
  le_trans (pyStrip_length_le _ _) (truncate280_length_le _)

theorem pyStrip_ws_clean_tweet (text : List Char) :
    pyStrip pyIsSpace (clean_tweet text) = clean_tweet text :=
  pyStrip_idem pyIsSpace _

/-! ## Claims -/

/-- C2: for every input string, the output of `_clean_tweet` has length
at most 280 characters. -/
theorem clean_tweet_length_le_280 (text : List Char) :
    (clean_tweet text).length ≤ 280 :=
  clean_tweet_length_le text

/-- C3 counterexample: `_clean_tweet` is not idempotent. On the input
`tweet:"hi` the first application strips the `tweet:` label and leaves
`"hi`, and the second application strips the now-leading quote and the
`reply:`-free remainder differs: `hi`. -/
theorem clean_tweet_not_idempotent :
    clean_tweet (clean_tweet ("tweet:\"hi".data)) ≠ clean_tweet ("tweet:\"hi".data) := by
  decide

/-- C3 (amended): `_clean_tweet` is idempotent on every input whose
cleaned output retains no surrounding quote characters and starts with
no label prefix; in general a second application can strip further. -/
theorem clean_tweet_idempotent_of_clean (s : List Char)
    (hq : pyStrip isQuoteChar (clean_tweet s) = clean_tweet s)
    (hp : ∀ pre ∈ labelPrefixes, ¬ pre.isPrefixOf (pyLower (clean_tweet s))) :
    clean_tweet (clean_tweet s) = clean_tweet s := by
  conv_lhs => rw [clean_tweet]
  rw [pyStrip_ws_clean_tweet, hq,
    foldl_stripPrefixStep_eq_self _ _ hp,
    truncate280_eq_self _ (clean_tweet_length_le s),
    pyStrip_ws_clean_tweet]

/-- Witness for C3 (amended) at the concrete input `"hello"`. -/
theorem clean_tweet_idempotent_of_clean_witness :
    (pyStrip isQuoteChar (clean_tweet ("hello".data)) = clean_tweet ("hello".data) ∧
      ∀ pre ∈ labelPrefixes, ¬ pre.isPrefixOf (pyLower (clean_tweet ("hello".data)))) ∧
    clean_tweet (clean_tweet ("hello".data)) = clean_tweet ("hello".data) :=
  ⟨⟨by decide, by decide⟩,
    clean_tweet_idempotent_of_clean ("hello".data) (by decide) (by decide)⟩

/-- C1 counterexample: when JSON extraction fails, `analyze_samples`
returns the default profile but leaves `self.style_profile` untouched
(here still `None`), so the stored profile differs from the returned
one. -/
theorem analyze_samples_not_always_stored :
    (analyze_samples ⟨none⟩ ["hi".data] .parseFail).state.style_profile ≠
      (analyze_samples ⟨none⟩ ["hi".data] .parseFail).result := by
  decide

/-- C1 (amended): for non-empty samples, on the successful-parse path
the returned profile (LLM fields overlaid with the quantitative
analysis) is stored as the current profile; on the extraction-failure
and exception paths the default profile is returned but the current
profile is left unchanged. -/
theorem analyze_samples_storage (st : AnalyzerState) (samples : List (List Char))
    (p : LLMProfile) (h : samples ≠ []) :
    ((analyze_samples st samples (.ok p)).state.style_profile =
        (analyze_samples st samples (.ok p)).result ∧
      (analyze_samples st samples (.ok p)).result =
        some ⟨p, quantitative_analysis samples⟩) ∧
    ((analyze_samples st samples .parseFail).state = st ∧
      (analyze_samples st samples .parseFail).result =
        some (create_default_profile samples)) ∧
    ((analyze_samples st samples .error).state = st ∧
      (analyze_samples st samples .error).result =
        some (create_default_profile samples)) := by
  simp [analyze_samples, h]

/-- Witness for C1 (amended) at concrete inputs. -/
theorem analyze_samples_storage_witness :
    (["hi".data] : List (List Char)) ≠ [] ∧
    (((analyze_samples ⟨none⟩ ["hi".data] (.ok ⟨[], [], [], [], [], [], [], [], [], [], []⟩)).state.style_profile =
        (analyze_samples ⟨none⟩ ["hi".data] (.ok ⟨[], [], [], [], [], [], [], [], [], [], []⟩)).result ∧
      (analyze_samples ⟨none⟩ ["hi".data] (.ok ⟨[], [], [], [], [], [], [], [], [], [], []⟩)).result =
        some ⟨⟨[], [], [], [], [], [], [], [], [], [], []⟩, quantitative_analysis ["hi".data]⟩) ∧
    ((analyze_samples ⟨none⟩ ["hi".data] .parseFail).state = ⟨none⟩ ∧
      (analyze_samples ⟨none⟩ ["hi".data] .parseFail).result =
        some (create_default_profile ["hi".data])) ∧
    ((analyze_samples ⟨none⟩ ["hi".data] .error).state = ⟨none⟩ ∧
      (analyze_samples ⟨none⟩ ["hi".data] .error).result =
        some (create_default_profile ["hi".data]))) :=
  ⟨by decide,
    analyze_samples_storage ⟨none⟩ ["hi".data] ⟨[], [], [], [], [], [], [], [], [], [], []⟩
      (by decide)⟩

/-- C4 counterexample: the default profile's `personality_traits` list
is `["informative"]`, not empty. -/
theorem create_default_profile_traits_not_empty :
    (create_default_profile ["hi".data]).descr.personality_traits ≠ [] := by
  decide

/-- C4 (amended): for every non-empty samples list the default profile
has the fixed neutral descriptive values, `emoji_usage`/`hashtag_style`
derived from the quantitative frequencies with thresholds 0.5 and 0.2,
empty `common_phrases`/`topics_of_interest`/`writing_quirks` lists, and
`personality_traits = ["informative"]`. -/
theorem create_default_profile_spec (samples : List (List Char)) (h : samples ≠ []) :
    (create_default_profile samples).descr.tone = "neutral".data ∧
    (create_default_profile samples).descr.voice = "conversational".data ∧
    (create_default_profile samples).descr.vocabulary_level = "moderate".data ∧
    (create_default_profile samples).descr.sentence_style = "varied".data ∧
    (create_default_profile samples).descr.punctuation_patterns = ["standard".data] ∧
    (create_default_profile samples).descr.emoji_usage =
      (if (1 : ℚ)/2 < (quantitative_analysis samples).emoji_frequency
        then "moderate".data else "rare".data) ∧
    (create_default_profile samples).descr.hashtag_style =
      (if (1 : ℚ)/5 < (quantitative_analysis samples).hashtag_frequency
        then "occasional".data else "none".data) ∧
    (create_default_profile samples).descr.common_phrases = [] ∧
    (create_default_profile samples).descr.personality_traits = ["informative".data] ∧
    (create_default_profile samples).descr.topics_of_interest = [] ∧
    (create_default_profile samples).descr.writing_quirks = [] := by
  refine ⟨rfl, rfl, rfl, rfl, rfl, rfl, rfl, rfl, rfl, rfl, rfl⟩

/-- Witness for C4 (amended) at the concrete samples list `["hi"]`. -/
theorem create_default_profile_spec_witness :
    (["hi".data] : List (List Char)) ≠ [] ∧
    (create_default_profile ["hi".data]).descr.tone = "neutral".data :=
  ⟨by decide, (create_default_profile_spec ["hi".data] (by decide)).1⟩

/-- C7 counterexample: with `reply_probability = 0` and a draw of
exactly 0 (which `random.random()` can return), the probability gate
`random.random() > reply_probability` does not fire, and with no
configured keywords the tweet is accepted. -/
theorem should_reply_accepts_at_zero_draw :
    should_reply_to_tweet 0 0 [] [] = true := by
  decide

/-- C7 (amended): with `reply_probability = 0`, `should_reply_to_tweet`
declines for every candidate tweet and every strictly positive draw in
(0, 1); a draw of exactly 0 passes the probability gate. -/
theorem should_reply_declines_at_zero_probability (draw : ℚ)
    (keywords : List (List Char)) (tweet_text : List Char) (h : 0 < draw) :
    should_reply_to_tweet 0 draw keywords tweet_text = false := by
  unfold should_reply_to_tweet
  rw [if_pos h]

/-- Witness for C7 (amended) at draw 1/2. -/
theorem should_reply_declines_at_zero_probability_witness :
    (0 : ℚ) < 1/2 ∧ should_reply_to_tweet 0 (1/2) [] [] = false :=
  ⟨by norm_num, should_reply_declines_at_zero_probability (1/2) [] [] (by norm_num)⟩

/-- C8: for the empty samples list, `analyze_samples` returns the empty
profile `{}` (modelled `none`), leaves the analyzer state unchanged and
performs no LLM call, whatever the hypothetical LLM outcome would have
been. -/
theorem analyze_samples_empty (st : AnalyzerState) (outcome : LLMOutcome) :
    analyze_samples st [] outcome = ⟨st, none, false⟩ := by
  rfl

/-- C5 counterexample: a firing at exactly `endHour:00:00` (here 21:00
with window 9–21) does not skip: the code's window check is the closed
interval `start_time <= now <= end_time`, so the job generates (2 LLM
calls) and submits a post (1 platform call), incrementing
`posts_today`. -/
theorem post_tweet_job_posts_at_end_hour :
    post_tweet_job ⟨0, none⟩
        ⟨21 * microsPerHour, 9, 21, 10, [], 0, "hi".data, true⟩ =
      (⟨1, none⟩, ⟨2, 1⟩) := by
  decide

/-- C5 (amended): the scheduled post job never generates or submits a
post when the current local time-of-day lies outside the closed window
`[startHour, endHour]`: whenever `now` is strictly before
`startHour:00:00` or strictly after `endHour:00:00` the firing makes no
LLM call and no platform call and leaves the state unchanged; a firing
at exactly `endHour:00:00` is inside the window and may post. -/
theorem post_tweet_job_skips_outside_window (st : SchedState) (env : PostEnv)
    (h : env.now < env.start_hour * microsPerHour ∨
      env.end_hour * microsPerHour < env.now) :
    post_tweet_job st env = (st, ⟨0, 0⟩) := by
  unfold post_tweet_job
  rw [if_pos]
  rcases h with h | h
  · exact fun hc => absurd hc.1 (by omega)
  · exact fun hc => absurd hc.2 (by omega)

/-- Witness for C5 (amended): a firing at midnight with window 9–21. -/
theorem post_tweet_job_skips_outside_window_witness :
    ((0 : Nat) < 9 * microsPerHour ∨ 21 * microsPerHour < (0 : Nat)) ∧
    post_tweet_job ⟨0, none⟩ ⟨0, 9, 21, 10, [], 0, "hi".data, true⟩ =
      (⟨0, none⟩, ⟨0, 0⟩) :=
  ⟨Or.inl (by norm_num [microsPerHour]),
    post_tweet_job_skips_outside_window ⟨0, none⟩
      ⟨0, 9, 21, 10, [], 0, "hi".data, true⟩ (Or.inl (by norm_num [microsPerHour]))⟩

/-- C6: when the firing is inside the posting window but
`posts_today >= max_posts`, the job makes no LLM generation call, no
platform call, and leaves `posts_today` and `last_mention_id`
unchanged. -/
theorem post_tweet_job_daily_limit (st : SchedState) (env : PostEnv)
    (hin : env.start_hour * microsPerHour ≤ env.now ∧
      env.now ≤ env.end_hour * microsPerHour)
    (hmax : env.max_posts ≤ st.posts_today) :
    post_tweet_job st env = (st, ⟨0, 0⟩) := by
  unfold post_tweet_job
  rw [if_neg (not_not_intro hin), if_pos hmax]

/-- Witness for C6: a firing at 10:00 with window 9–21 and the daily
limit already reached. -/
theorem post_tweet_job_daily_limit_witness :
    (9 * microsPerHour ≤ 10 * microsPerHour ∧
      10 * microsPerHour ≤ 21 * microsPerHour) ∧ (10 : Nat) ≤ 10 ∧
    post_tweet_job ⟨10, none⟩
        ⟨10 * microsPerHour, 9, 21, 10, [], 0, "hi".data, true⟩ =
      (⟨10, none⟩, ⟨0, 0⟩) :=
  ⟨⟨by norm_num [microsPerHour], by norm_num [microsPerHour]⟩, le_refl 10,
    post_tweet_job_daily_limit ⟨10, none⟩
      ⟨10 * microsPerHour, 9, 21, 10, [], 0, "hi".data, true⟩
      ⟨by norm_num [microsPerHour], by norm_num [microsPerHour]⟩ (le_refl 10)⟩

/-- C9: with posting hours 9–21 and `max_posts_per_day = 12`, the base
interval is `(21-9)*60 // 12 = 60` minutes with randomization bounds
`int(60*0.8) = 48` and `int(60*1.2) = 72`, and `random.randint(48, 72)`
always lands in the integer range `[48, 72]` and attains every value of
it. -/
theorem schedule_posting_interval_9_21_12 :
    schedule_posting_params 9 21 12 = some (60, 48, 72) ∧
    (∀ d : Nat, 48 ≤ randint 48 72 d ∧ randint 48 72 d ≤ 72) ∧
    (∀ i : Fin 25, randint 48 72 i.val = 48 + i.val) := by
  refine ⟨?_, fun d => ?_, fun i => ?_⟩
  · unfold schedule_posting_params
    rw [if_neg (by norm_num)]
    have h1 : (((21 : ℤ) - 9) * 60).fdiv 12 = 60 := by decide
    simp only [h1]
    have h2 : (((60 : ℤ) : ℚ) * (4/5)).floor = 48 := by
      have h : ((60 : ℤ) : ℚ) * (4/5) = 48 := by norm_num
      rw [h]
      norm_num [Rat.floor_def']
    have h3 : (((60 : ℤ) : ℚ) * (6/5)).floor = 72 := by
      have h : ((60 : ℤ) : ℚ) * (6/5) = 72 := by norm_num
      rw [h]
      norm_num [Rat.floor_def']
    rw [h2, h3]
  · unfold randint
    omega
  · unfold randint
    have := i.isLt
    omega

/-- C10: on every firing of the reply-monitor job with a non-empty
fetched mentions list, `last_mention_id` is set to the id of the first
(newest) fetched mention, the cursor update precedes every reply
attempt in the event order, and the final cursor value is independent
of the outcome of each reply attempt. -/
theorem monitor_and_reply_job_cursor (st : SchedState) (m : Mention)
    (rest : List Mention) (replyOk : Mention → Bool) :
    (monitor_and_reply_job st (m :: rest) replyOk).1.last_mention_id = some m.id ∧
    (monitor_and_reply_job st (m :: rest) replyOk).1.posts_today = st.posts_today ∧
    (monitor_and_reply_job st (m :: rest) replyOk).2 =
      MonitorEvent.setCursor m.id ::
        (m :: rest).map (fun x => MonitorEvent.replyAttempt x.id (replyOk x)) :=
  ⟨rfl, rfl, rfl⟩

end XPoster
